import Mathlib

/-!
Shallow embedding of the payment-orchestration service
(`src/stripe/stripe.service.ts` and `src/stripe/stripe.controller.ts`).

Conventions of the embedding:
* The external payment platform is modelled by explicit data passed to each
  operation: the pages a paginated listing returns, the outcome of each
  remote call (`Except JsError _`), the customer's attached instruments.
* JavaScript numbers are modelled as `Int` where the code only ever adds
  integers (minor currency units) and as `ℚ` where the code divides; for the
  integer-cent inputs considered here the float arithmetic of the source is
  exact, so `ℚ` is a faithful model.
* A thrown `BadRequestException` is modelled as `Except.error` carrying the
  exception message; a caught-and-rethrown exception is modelled by the
  corresponding `match` on the inner result, exactly following each
  function's `try`/`catch` structure.
-/

namespace Stripe

/-- A JavaScript error value as observed by a `catch` handler: Stripe
platform errors carry a string `code` (`err.code`), while a
`BadRequestException` thrown locally has no `code` field (`none`). -/
structure JsError where
  code : Option String
  message : String
deriving DecidableEq, Repr

/-- A charge as returned by the platform's `charges.list`
(the fields read by `getTotalRevenue` and `getPaymentStats`). -/
structure Charge where
  id : String
  created : Int
  paid : Bool
  refunded : Bool
  amount : Option Int
  amount_refunded : Int
deriving DecidableEq, Repr

/-- The body of the `for (const charge of chargesPage.data)` loop of
`getTotalRevenue`:
`if (charge.paid && !charge.refunded) { totalAmount += charge.amount ?? 0 }`. -/
def revenueStep (acc : Int) (charge : Charge) : Int :=
  if charge.paid && !charge.refunded then acc + charge.amount.getD 0 else acc

/-- Processing of one page of charges by `getTotalRevenue`. -/
def revenuePageFold (totalAmount : Int) (page : List Charge) : Int :=
  page.foldl revenueStep totalAmount

/-- `getTotalRevenue` of `stripe.service.ts` (lines 217-245): the `while (hasMore)`
pagination loop accumulates `totalAmount : Int` over the successive pages the
platform returns for the window query, and divides by 100 once, at the end
(`return totalAmount / 100`).  `pages` is the sequence of pages produced by the
platform for `charges.list({created: {gte: startDate, lte: endDate}, ...})`. -/
def getTotalRevenue (pages : List (List Charge)) : ℚ :=
  ((pages.foldl revenuePageFold 0 : Int) : ℚ) / 100

/-- A charge that contributes to revenue: `charge.paid && !charge.refunded`. -/
def goodCharge (c : Charge) : Bool :=
  c.paid && !c.refunded

/-- `charge.amount ?? 0`. -/
def chargeAmount (c : Charge) : Int :=
  c.amount.getD 0

lemma revenueStep_eq (acc : Int) (c : Charge) :
    revenueStep acc c = acc + (if goodCharge c then chargeAmount c else 0) := by
  unfold revenueStep goodCharge chargeAmount
  split <;> simp_all

lemma revenuePageFold_eq (page : List Charge) (init : Int) :
    revenuePageFold init page = init + ((page.filter goodCharge).map chargeAmount).sum := by
  induction page generalizing init with
  | nil => simp [revenuePageFold]
  | cons c rest ih =>
    have h1 : revenuePageFold init (c :: rest) = revenuePageFold (revenueStep init c) rest := rfl
    rw [h1, ih, revenueStep_eq]
    by_cases h : goodCharge c = true
    · simp [List.filter_cons, h, add_assoc]
    · simp [List.filter_cons, h]

lemma revenueFold_eq (pages : List (List Charge)) (init : Int) :
    pages.foldl revenuePageFold init
      = init + ((pages.flatten.filter goodCharge).map chargeAmount).sum := by
  induction pages generalizing init with
  | nil => simp
  | cons page rest ih =>
    simp [List.foldl_cons, ih, revenuePageFold_eq, List.filter_append, add_assoc]

/-- A charge counted by the specification of `getTotalRevenue`: created inside
the window `[startDate, endDate]` (both inclusive), marked paid, not refunded. -/
def inWindowGoodCharge (startDate endDate : Int) (c : Charge) : Bool :=
  decide (startDate ≤ c.created) && decide (c.created ≤ endDate) && goodCharge c

/-- C1: for every window `[startDate, endDate]` and every paginated sequence of
charge pages (all of whose charges the platform returned for that window, hence
lie inside it), `getTotalRevenue` returns exactly the sum of the amounts of the
paid, non-refunded charges of the window, accumulated as an integer amount of
minor units across every page and divided by 100 once at the end; unpaid or
refunded charges contribute nothing. -/
theorem getTotalRevenue_correct (pages : List (List Charge)) (startDate endDate : Int)
    (hwin : ∀ c ∈ pages.flatten, startDate ≤ c.created ∧ c.created ≤ endDate) :
    getTotalRevenue pages
      = ((((pages.flatten.filter (inWindowGoodCharge startDate endDate)).map
            chargeAmount).sum : Int) : ℚ) / 100 := by
  have hfe : pages.flatten.filter (inWindowGoodCharge startDate endDate)
      = pages.flatten.filter goodCharge := by
    apply List.filter_congr
    intro c hc
    have h := hwin c hc
    simp [inWindowGoodCharge, h.1, h.2]
  rw [hfe, getTotalRevenue, revenueFold_eq]
  norm_num

/-- Concrete instantiation of `getTotalRevenue_correct`: two pages, one charge
unpaid and one refunded; only the two paid, non-refunded charges (150 + 25
cents) count, giving 175/100 euros. -/
theorem getTotalRevenue_correct_witness :
    getTotalRevenue
        [[⟨"ch1", 5, true, false, some 150, 0⟩, ⟨"ch2", 6, true, true, some 999, 0⟩],
         [⟨"ch3", 7, false, false, some 77, 0⟩, ⟨"ch4", 8, true, false, some 25, 0⟩]]
      = (175 : ℚ) / 100 := by
  rw [getTotalRevenue_correct
    [[⟨"ch1", 5, true, false, some 150, 0⟩, ⟨"ch2", 6, true, true, some 999, 0⟩],
     [⟨"ch3", 7, false, false, some 77, 0⟩, ⟨"ch4", 8, true, false, some 25, 0⟩]]
    0 10 (by decide)]
  norm_num [inWindowGoodCharge, goodCharge, chargeAmount]

/-! ### Subscriptions: `createSubscription` (lines 81-104) -/

/-- The request parameters `createSubscription` sends to
`subscriptions.create`: customer, single price item, and an optional
`trial_end` Unix-seconds timestamp. -/
structure SubscriptionCreateParams where
  customer : String
  price : String
  trial_end : Option Int
deriving DecidableEq, Repr

/-- `createSubscription` (lines 81-104), embedded as the request parameters it
builds.  `startDate` is the optional caller-supplied `Date`, represented by its
millisecond timestamp (`startDate.getTime()`); `nowMs` is `Date.now()`.  The
source sets `params.trial_end = Math.floor(startDate.getTime() / 1000)` exactly
when `startDate && startDate.getTime() > Date.now()`; otherwise the field stays
absent.  The function is total: a past or present date raises no error. -/
def createSubscription (customerId priceId : String) (startDate : Option Int)
    (nowMs : Int) : SubscriptionCreateParams :=
  let params : SubscriptionCreateParams :=
    { customer := customerId, price := priceId, trial_end := none }
  match startDate with
  | some t => if t > nowMs then { params with trial_end := some (Int.fdiv t 1000) } else params
  | none => params

lemma fdiv_thousand_eq_floor (t : Int) : Int.fdiv t 1000 = ⌊(t : ℚ) / 1000⌋ := by
  rw [show ((1000 : ℚ)) = ((1000 : ℕ) : ℚ) by norm_num, Rat.floor_intCast_div_natCast]
  rw [Int.fdiv_eq_ediv]
  · rfl
  · norm_num

/-- C5: `createSubscription` requests a trial end equal to the floor of the
start date's Unix-seconds value exactly when a start date is supplied and is
strictly after the current time; a start date in the past or equal to now, or
no start date, produces no trial end field (and no error: the function is
total). -/
theorem createSubscription_trial_end (customerId priceId : String) (t nowMs : Int) :
    (nowMs < t →
      createSubscription customerId priceId (some t) nowMs
        = ⟨customerId, priceId, some ⌊(t : ℚ) / 1000⌋⟩) ∧
    (t ≤ nowMs →
      createSubscription customerId priceId (some t) nowMs
        = ⟨customerId, priceId, none⟩) ∧
    createSubscription customerId priceId none nowMs = ⟨customerId, priceId, none⟩ := by
  refine ⟨fun h => ?_, fun h => ?_, rfl⟩
  · simp [createSubscription, h, fdiv_thousand_eq_floor]
  · simp [createSubscription, not_lt.mpr h]

/-- Concrete instantiation of `createSubscription_trial_end`: a start date of
5999 ms strictly after now (4000 ms) yields `trial_end = ⌊5999/1000⌋ = 5`;
the same date at a later now (6000 ms) yields no trial end. -/
theorem createSubscription_trial_end_witness :
    createSubscription "cus_1" "price_1" (some 5999) 4000 = ⟨"cus_1", "price_1", some 5⟩ ∧
    createSubscription "cus_1" "price_1" (some 5999) 6000 = ⟨"cus_1", "price_1", none⟩ := by
  constructor
  · rw [(createSubscription_trial_end "cus_1" "price_1" 5999 4000).1 (by norm_num)]
    norm_num [Int.floor_eq_iff]
  · exact (createSubscription_trial_end "cus_1" "price_1" 5999 6000).2.1 (by norm_num)

/-! ### Connect account status: `getStripeAccountStatus` (lines 442-462) -/

/-- The fields of a connected `Stripe.Account` read by `getStripeAccountStatus`.
`currently_due` collapses the optional chain `requirements?.currently_due?`
into a single `Option`: it is `none` when either hop is absent. -/
structure Account where
  details_submitted : Option Bool
  charges_enabled : Option Bool
  payouts_enabled : Option Bool
  currently_due : Option (List String)
deriving DecidableEq, Repr

/-- The result record of `getStripeAccountStatus`. -/
structure AccountStatus where
  isValid : Bool
  isEnabled : Bool
  needsIdCard : Bool
deriving DecidableEq, Repr

/-- The substring the requirements are scanned for. -/
def verificationDocumentKey : String := "verification.document"

/-- `req.includes('verification.document')`. -/
def mentionsVerificationDocument (req : String) : Bool :=
  decide (verificationDocumentKey.data <:+: req.data)

/-- `getStripeAccountStatus` (lines 442-462).  `result` is the outcome of
`accounts.retrieve(stripeAccountId)`.  The whole body sits in a `try` whose
`catch` returns `{isValid: false, isEnabled: false, needsIdCard: false}`, so
the embedding is a total function: no failure propagates. -/
def getStripeAccountStatus (result : Except JsError Account) : AccountStatus :=
  match result with
  | .ok account =>
      { isValid := account.details_submitted == some true
        isEnabled := account.charges_enabled == some true
                       && account.payouts_enabled == some true
        needsIdCard :=
          (account.currently_due.map
            (fun reqs => reqs.any mentionsVerificationDocument)).getD false }
  | .error _ => { isValid := false, isEnabled := false, needsIdCard := false }

/-- C6: `getStripeAccountStatus` never raises (it is a total function of the
retrieval outcome); on any retrieval failure it returns all-false; on success
`isValid` holds iff details are submitted, `isEnabled` holds iff both charges
and payouts are enabled, and `needsIdCard` holds iff some entry of the
currently-due requirements list contains the verification-document substring. -/
theorem getStripeAccountStatus_correct (result : Except JsError Account) :
    (∀ e, result = .error e →
      getStripeAccountStatus result = ⟨false, false, false⟩) ∧
    (∀ account, result = .ok account →
      ((getStripeAccountStatus result).isValid = true
          ↔ account.details_submitted = some true) ∧
      ((getStripeAccountStatus result).isEnabled = true
          ↔ (account.charges_enabled = some true ∧ account.payouts_enabled = some true)) ∧
      ((getStripeAccountStatus result).needsIdCard = true
          ↔ ∃ req ∈ account.currently_due.getD [], ∃ l r,
              req.data = l ++ verificationDocumentKey.data ++ r)) := by
  constructor
  · rintro e rfl
    rfl
  · rintro account rfl
    refine ⟨?_, ?_, ?_⟩
    · simp [getStripeAccountStatus]
    · simp [getStripeAccountStatus]
    · rcases hdue : account.currently_due with _ | reqs
      · simp [getStripeAccountStatus, hdue]
      · simp only [getStripeAccountStatus, hdue, Option.map_some', Option.getD_some,
          Option.getD_some, List.any_eq_true, mentionsVerificationDocument,
          decide_eq_true_eq]
        constructor
        · rintro ⟨req, hreq, l, r, hlr⟩
          exact ⟨req, hreq, l, r, hlr.symm⟩
        · rintro ⟨req, hreq, l, r, hlr⟩
          exact ⟨req, hreq, l, r, hlr.symm⟩

/-- Concrete instantiation of `getStripeAccountStatus_correct`: a failed
retrieval (nonexistent account id) yields the all-false status. -/
theorem getStripeAccountStatus_correct_witness :
    getStripeAccountStatus (Except.error ⟨none, "No such account: acct_missing"⟩)
      = ⟨false, false, false⟩ :=
  (getStripeAccountStatus_correct
      (Except.error ⟨none, "No such account: acct_missing"⟩)).1
    ⟨none, "No such account: acct_missing"⟩ rfl

/-! ### Connect transfers: `transferToConnectedAccount` (lines 468-492) -/

/-- The fields of a `Stripe.Transfer` that the mock object of
`transferToConnectedAccount` populates. -/
structure Transfer where
  id : String
  amount : Int
  currency : String
  destination : String
  object : String
  created : Int
deriving DecidableEq, Repr

/-- `transferToConnectedAccount` (lines 468-492).  `platformResult` is the
outcome of `transfers.create`; on failure the `catch` logs a warning and
returns the mock object literal of lines 483-490 instead of rethrowing. -/
def transferToConnectedAccount (stripeAccountId : String) (amountInCents : Int)
    (platformResult : Except JsError Transfer) (nowMs : Int) : Transfer :=
  match platformResult with
  | .ok transfer => transfer
  | .error _ =>
      { id := "mock_transfer", amount := amountInCents, currency := "eur",
        destination := stripeAccountId, object := "transfer",
        created := Int.fdiv nowMs 1000 }

/-- C7: `transferToConnectedAccount` never propagates a platform failure (it is
a total function of the platform outcome): on success it returns the real
transfer, and on any failure it returns a synthetic transfer carrying the
requested amount and destination and the sentinel id `"mock_transfer"`, which
differs from the id of every real transfer (whose ids are never the
sentinel). -/
theorem transferToConnectedAccount_soft_failure (stripeAccountId : String)
    (amountInCents : Int) (platformResult : Except JsError Transfer) (nowMs : Int) :
    (∀ t, platformResult = .ok t →
      transferToConnectedAccount stripeAccountId amountInCents platformResult nowMs = t) ∧
    (∀ e, platformResult = .error e →
      (transferToConnectedAccount stripeAccountId amountInCents platformResult nowMs).id
          = "mock_transfer" ∧
      (transferToConnectedAccount stripeAccountId amountInCents platformResult nowMs).amount
          = amountInCents ∧
      (transferToConnectedAccount stripeAccountId amountInCents platformResult nowMs).destination
          = stripeAccountId ∧
      ∀ t : Transfer, t.id ≠ "mock_transfer" →
        transferToConnectedAccount stripeAccountId amountInCents platformResult nowMs ≠ t) := by
  constructor
  · rintro t rfl
    rfl
  · rintro e rfl
    refine ⟨rfl, rfl, rfl, fun t ht heq => ht ?_⟩
    rw [← heq]
    rfl

/-- Concrete instantiation of `transferToConnectedAccount_soft_failure`: a
failing transfer of 2500 cents to `acct_42` yields the synthetic record. -/
theorem transferToConnectedAccount_soft_failure_witness :
    (transferToConnectedAccount "acct_42" 2500
        (Except.error ⟨none, "You cannot create transfers in test mode"⟩) 0).id
      = "mock_transfer" :=
  ((transferToConnectedAccount_soft_failure "acct_42" 2500
      (Except.error ⟨none, "You cannot create transfers in test mode"⟩) 0).2
    ⟨none, "You cannot create transfers in test mode"⟩ rfl).1

/-! ### One-shot charges: `chargeCustomer` (lines 130-171) -/

/-- The `try` block of `chargeCustomer`: list the customer's card payment
methods with `limit: 1`; if the page is empty, throw
`BadRequestException('Aucun moyen de paiement attaché au client.')` (a local
exception, hence it carries no `code`); otherwise create and confirm an
off-session payment intent with the first listed method.
`paymentMethods` is the customer's card-instrument list in platform order;
`createIntent pm` is the platform outcome of `paymentIntents.create` for
payment method `pm` (the created intent id, or a platform error). -/
def chargeCustomerTry (paymentMethods : List String)
    (createIntent : String → Except JsError String) : Except JsError String :=
  match paymentMethods.take 1 with
  | [] => .error ⟨none, "Aucun moyen de paiement attaché au client."⟩
  | paymentMethodId :: _ => createIntent paymentMethodId

/-- `chargeCustomer` (lines 130-171): the `try` block followed by the `catch`
handler, which rethrows `BadRequestException('Paiement échoué : ' + err.message)`
when `err.code` is `authentication_required` or `card_declined`, and the
generic `BadRequestException('Erreur lors du prélèvement Stripe')` for every
other caught error — including the no-instrument exception thrown inside the
same `try`, whose `code` is undefined.  The result is the returned
`paymentIntentId` or the message of the propagated exception. -/
def chargeCustomer (paymentMethods : List String)
    (createIntent : String → Except JsError String) : Except String String :=
  match chargeCustomerTry paymentMethods createIntent with
  | .ok intentId => .ok intentId
  | .error e =>
      if e.code = some "authentication_required" ∨ e.code = some "card_declined" then
        .error ("Paiement échoué : " ++ e.message)
      else
        .error "Erreur lors du prélèvement Stripe"

/-- C2 (code bug, evaluated at the failing input): for a customer with no
attached card instrument, `chargeCustomer` does construct the dedicated
validation exception, but since it is thrown inside the function's own `try`
block it is caught by the `catch` handler (its `err.code` is undefined) and
replaced by the generic gateway message — so the caller sees the generic
error, not the distinct validation error the claim describes.  The remaining
parts of the claim hold: a declined or authentication-required card yields the
distinct `Paiement échoué` error, any other platform failure the generic one,
and the success path returns the charge id. -/
theorem chargeCustomer_no_instrument_bug :
    chargeCustomer [] (fun _ => .ok "pi_1") = .error "Erreur lors du prélèvement Stripe" ∧
    chargeCustomer [] (fun _ => .ok "pi_1")
        ≠ .error "Aucun moyen de paiement attaché au client." ∧
    chargeCustomer ["pm_1"] (fun _ => .ok "pi_1") = .ok "pi_1" ∧
    chargeCustomer ["pm_1"]
        (fun _ => .error ⟨some "card_declined", "Your card was declined."⟩)
      = .error "Paiement échoué : Your card was declined." ∧
    chargeCustomer ["pm_1"]
        (fun _ => .error ⟨some "authentication_required", "Authentication is required."⟩)
      = .error "Paiement échoué : Authentication is required." ∧
    chargeCustomer ["pm_1"] (fun _ => .error ⟨some "rate_limit", "Too many requests."⟩)
      = .error "Erreur lors du prélèvement Stripe" := by
  refine ⟨rfl, ?_, rfl, rfl, rfl, rfl⟩
  intro h
  have h2 := Except.error.inj
    (show (Except.error "Erreur lors du prélèvement Stripe" : Except String String)
        = Except.error "Aucun moyen de paiement attaché au client." from h)
  revert h2
  decide

/-! ### Instrument attachment: `attachPaymentMethod` (lines 39-71) -/

/-- The observable outcome of one `attachPaymentMethod` call: the value or
propagated exception message, whether the remote `paymentMethods.attach` call
was issued, and the customer's card-instrument list after the call (the
platform lists the most recently attached instrument first). -/
structure AttachOutcome where
  result : Except String Unit
  attachCalled : Bool
  cards : List String
deriving Repr

/-- `attachPaymentMethod` (lines 39-71).  Inside the `try`: list the customer's
card instruments (`limit: 100`, a single page); if the instrument is already
present, throw `BadRequestException('Cette méthode de paiement est déjà attachée
au client.')`; otherwise attach it and set it as the default invoicing
instrument.  The `catch` replaces every caught error — including that conflict
exception — with `BadRequestException('Erreur lors de l’attachement de la
méthode de paiement.')`.  `cards` is the customer's current card-instrument
list; `attachErr`/`updateErr` are the platform outcomes of the two remote
mutation calls (`none` = success). -/
def attachPaymentMethod (cards : List String) (paymentMethodId : String)
    (attachErr updateErr : Option JsError) : AttachOutcome :=
  if (cards.take 100).any (fun pm => pm == paymentMethodId) then
    { result := .error "Erreur lors de l’attachement de la méthode de paiement."
      attachCalled := false
      cards := cards }
  else
    match attachErr with
    | some _ =>
        { result := .error "Erreur lors de l’attachement de la méthode de paiement."
          attachCalled := true
          cards := cards }
    | none =>
        match updateErr with
        | some _ =>
            { result := .error "Erreur lors de l’attachement de la méthode de paiement."
              attachCalled := true
              cards := paymentMethodId :: cards }
        | none =>
            { result := .ok ()
              attachCalled := true
              cards := paymentMethodId :: cards }

/-- C3 (code bug, evaluated at the failing input): after a successful attach of
`pm_b`, a second call with the same pair finds the instrument in the existing
card list and issues no attach call, so the instrument is never attached twice
— but the conflict exception it throws is caught by the function's own `catch`
and replaced by the generic attachment-failure message, so the caller sees the
generic error instead of the distinct conflict error the claim describes. -/
theorem attachPaymentMethod_second_call_bug :
    (attachPaymentMethod ["pm_a"] "pm_b" none none).result = .ok () ∧
    (attachPaymentMethod ["pm_a"] "pm_b" none none).cards = ["pm_b", "pm_a"] ∧
    (attachPaymentMethod ["pm_b", "pm_a"] "pm_b" none none).attachCalled = false ∧
    (attachPaymentMethod ["pm_b", "pm_a"] "pm_b" none none).cards = ["pm_b", "pm_a"] ∧
    (attachPaymentMethod ["pm_b", "pm_a"] "pm_b" none none).result
      = .error "Erreur lors de l’attachement de la méthode de paiement." ∧
    (attachPaymentMethod ["pm_b", "pm_a"] "pm_b" none none).result
      ≠ .error "Cette méthode de paiement est déjà attachée au client." := by
  refine ⟨rfl, rfl, rfl, rfl, rfl, ?_⟩
  intro h
  have h2 := Except.error.inj
    (show (Except.error "Erreur lors de l’attachement de la méthode de paiement."
            : Except String Unit)
        = Except.error "Cette méthode de paiement est déjà attachée au client." from h)
  revert h2
  decide

/-! ### Plans: `createPriceForPlan` (lines 180-207) -/

/-- The parameters `createPriceForPlan` sends to `prices.create`. -/
structure PriceCreateParams where
  unit_amount : Int
  currency : String
  product : String
deriving DecidableEq, Repr

/-- The observable outcome of `createPriceForPlan`: the created price
parameters or the propagated exception message, plus whether the remote
`products.create` call was reached. -/
structure CreatePriceOutcome where
  result : Except String PriceCreateParams
  productCreateAttempted : Bool
deriving Repr

/-- `Math.round`: round half toward positive infinity. -/
def jsRound (q : ℚ) : Int := ⌊q + 1 / 2⌋

/-- `createPriceForPlan` (lines 180-207).  The validation
`if (!planName || !planPrice) throw BadRequestException(...)` sits *before*
the `try`, so it propagates unchanged; `!planPrice` is JavaScript falsiness,
which holds for a price of 0.  Inside the `try`, `products.create` then
`prices.create` run with `unit_amount: Math.round(planPrice * 100)`; any
platform failure is replaced by the generic message by the `catch`.
`productResult` is the platform outcome of `products.create` (the product id);
`priceAccepted` is whether `prices.create` succeeds. -/
def createPriceForPlan (planName : String) (planPrice : ℚ)
    (productResult : Except JsError String) (priceAccepted : Bool) : CreatePriceOutcome :=
  if planName = "" ∨ planPrice = 0 then
    { result := .error "Le plan doit avoir un nom et un prix valides."
      productCreateAttempted := false }
  else
    match productResult with
    | .error _ =>
        { result := .error "Impossible de créer le plan sur Stripe"
          productCreateAttempted := true }
    | .ok productId =>
        if priceAccepted then
          { result := .ok ⟨jsRound (planPrice * 100), "eur", productId⟩
            productCreateAttempted := true }
        else
          { result := .error "Impossible de créer le plan sur Stripe"
            productCreateAttempted := true }

/-- C10: `createPriceForPlan` rejects a plan price of 0, and an empty plan
name, with the dedicated validation error before any call to the external
platform (the validation throw precedes the `try`, so it is not swallowed);
when the inputs are accepted and the platform accepts both calls, the created
price's unit amount is `round(planPrice * 100)` minor units. -/
theorem createPriceForPlan_correct (planName : String) (planPrice : ℚ)
    (productResult : Except JsError String) (priceAccepted : Bool) :
    (planName = "" ∨ planPrice = 0 →
      createPriceForPlan planName planPrice productResult priceAccepted
        = ⟨.error "Le plan doit avoir un nom et un prix valides.", false⟩) ∧
    (planName ≠ "" → planPrice ≠ 0 → ∀ productId, productResult = .ok productId →
      priceAccepted = true →
      createPriceForPlan planName planPrice productResult priceAccepted
        = ⟨.ok ⟨jsRound (planPrice * 100), "eur", productId⟩, true⟩) := by
  constructor
  · intro h
    simp [createPriceForPlan, h]
  · rintro h1 h2 productId rfl rfl
    simp [createPriceForPlan, h1, h2]

/-- Concrete instantiation of `createPriceForPlan_correct`: a zero price is
rejected with the validation error before the product-creation call, even with
a cooperative platform; the accepted price 19.99 yields a unit amount of 1999
cents. -/
theorem createPriceForPlan_correct_witness :
    createPriceForPlan "Premium" 0 (Except.ok "prod_1") true
      = ⟨.error "Le plan doit avoir un nom et un prix valides.", false⟩ ∧
    createPriceForPlan "Premium" (1999 / 100) (Except.ok "prod_1") true
      = ⟨.ok ⟨jsRound (1999 / 100 * 100), "eur", "prod_1"⟩, true⟩ := by
  constructor
  · exact (createPriceForPlan_correct "Premium" 0 (Except.ok "prod_1") true).1 (Or.inr rfl)
  · exact (createPriceForPlan_correct "Premium" (1999 / 100) (Except.ok "prod_1") true).2
      (by decide) (by norm_num) "prod_1" rfl rfl

/-! ### Webhook verification and dispatch: `handleWebhook`
(`stripe.controller.ts`, lines 128-162) -/

/-- The controller's response to an inbound webhook: the thrown
`BadRequestException` (a client error), or the `{received: true}`
acknowledgement together with the names of the event handlers the dispatch
switch invoked (the recognized-case bodies that ran). -/
inductive WebhookResponse where
  | clientError (message : String)
  | received (invokedHandlers : List String)
deriving DecidableEq, Repr

/-- Model of the external platform SDK call `webhooks.constructEvent` (not part
of this repository), faithful to the spec of the verification layer: it
recomputes a signature over the exact raw request body with the shared secret
and compares it to the provided header, failing on a missing header or any
mismatch, and otherwise yielding the typed event parsed from the body.
`computeSig secret payload` is the abstract signature scheme and
`eventTypeOf payload` the event type encoded in the body; the theorem below
holds for every such scheme. -/
def constructEvent (computeSig : String → String → String)
    (eventTypeOf : String → String) (payload : String) (sigHeader : Option String)
    (secret : String) : Except String String :=
  match sigHeader with
  | none => .error "Unable to extract timestamp and signatures from header"
  | some sig =>
      if sig = computeSig secret payload then .ok (eventTypeOf payload)
      else .error "No signatures found matching the expected signature for payload"

/-- `handleWebhook` of `stripe.controller.ts` (lines 128-162): verification
failure is rethrown as `BadRequestException('Signature invalide : ' + err.message)`;
on success the dispatch switch runs the handler of the recognized event types
(`invoice.payment_succeeded`, `payment_intent.succeeded`, `charge.refunded`),
logs unrecognized types in the `default` case without invoking any handler,
and in every verified case returns `{received: true}`. -/
def handleWebhook (computeSig : String → String → String)
    (eventTypeOf : String → String) (rawBody : String) (sigHeader : Option String)
    (secret : String) : WebhookResponse :=
  match constructEvent computeSig eventTypeOf rawBody sigHeader secret with
  | .error msg => .clientError ("Signature invalide : " ++ msg)
  | .ok eventType =>
      if eventType = "invoice.payment_succeeded" then
        .received ["invoice.payment_succeeded"]
      else if eventType = "payment_intent.succeeded" then
        .received ["payment_intent.succeeded"]
      else if eventType = "charge.refunded" then
        .received ["charge.refunded"]
      else
        .received []

/-- C8: for every signature scheme, secret, raw body and header, if the
signature recomputed over the exact raw body does not match the provided
header (or the header is missing) the request is rejected with a client error,
regardless of the event type the body encodes; if the signature matches but
the event type is none of the recognized ones, the event is acknowledged with
`{received: true}` without invoking any handler. -/
theorem handleWebhook_correct (computeSig : String → String → String)
    (eventTypeOf : String → String) (rawBody : String) (sigHeader : Option String)
    (secret : String) :
    (sigHeader ≠ some (computeSig secret rawBody) →
      ∃ msg, handleWebhook computeSig eventTypeOf rawBody sigHeader secret
        = .clientError msg) ∧
    (sigHeader = some (computeSig secret rawBody) →
      eventTypeOf rawBody ∉
        ["invoice.payment_succeeded", "payment_intent.succeeded", "charge.refunded"] →
      handleWebhook computeSig eventTypeOf rawBody sigHeader secret = .received []) := by
  constructor
  · intro hne
    rcases sigHeader with _ | sig
    · exact ⟨_, rfl⟩
    · have hsig : ¬ sig = computeSig secret rawBody := fun h => hne (by rw [h])
      refine ⟨"Signature invalide : No signatures found matching the expected signature for payload", ?_⟩
      simp [handleWebhook, constructEvent, hsig]
  · rintro rfl hty
    simp only [List.mem_cons, List.mem_singleton, not_or] at hty
    simp [handleWebhook, constructEvent, hty.1, hty.2.1, hty.2.2]

/-- Concrete instantiation of `handleWebhook_correct` with the scheme
`computeSig secret payload = secret ++ payload`: a wrong header is rejected
even for a recognized event type, and a valid header with an unrecognized
event type is acknowledged with no handler invoked. -/
theorem handleWebhook_correct_witness :
    (∃ msg, handleWebhook (fun secret payload => secret ++ payload)
        (fun _ => "invoice.payment_succeeded") "body" (some "wrong") "whsec"
      = .clientError msg) ∧
    handleWebhook (fun secret payload => secret ++ payload)
        (fun _ => "product.created") "body" (some "whsecbody") "whsec"
      = .received [] := by
  constructor
  · exact (handleWebhook_correct (fun secret payload => secret ++ payload)
      (fun _ => "invoice.payment_succeeded") "body" (some "wrong") "whsec").1
      (by decide)
  · exact (handleWebhook_correct (fun secret payload => secret ++ payload)
      (fun _ => "product.created") "body" (some "whsecbody") "whsec").2
      (by decide) (by decide)

/-! ### Payment statistics: `getPaymentStats` (lines 304-362) -/

/-- The fields of a `Stripe.PaymentIntent` read by `getPaymentStats`. -/
structure PaymentIntent where
  id : String
  status : String
  amount_received : Option Int
  payment_method_types : List String
deriving DecidableEq, Repr

/-- One entry of the `byMethod` result array: `{method, count, value}`. -/
structure MethodStat where
  method : String
  count : Nat
  value : ℚ
deriving DecidableEq, Repr

/-- The result record of `getPaymentStats`; `byMethod` is
`Object.entries(methodStats)` in key-insertion order. -/
structure PaymentStats where
  successRate : ℚ
  averageValue : ℚ
  refundRate : ℚ
  byMethod : List MethodStat
deriving DecidableEq, Repr

/-- `pi.payment_method_types[0] ?? 'unknown'`. -/
def firstMethod (pi : PaymentIntent) : String :=
  pi.payment_method_types.headD "unknown"

/-- `(pi.amount_received ?? 0) / 100`. -/
def amountEuro (pi : PaymentIntent) : ℚ :=
  ((pi.amount_received.getD 0 : Int) : ℚ) / 100

/-- The refund test applied to one charge:
`c.refunded || c.amount_refunded > 0`. -/
def refundedCharge (c : Charge) : Bool :=
  c.refunded || decide (0 < c.amount_refunded)

/-- Whether the charges the platform lists for a payment intent
(`charges.list({payment_intent: pi.id, limit: 100})`, given by `chargesOf`)
contain a refunded one: `chargesPage.data.some(c => c.refunded || c.amount_refunded > 0)`. -/
def hasRefundedCharge (chargesOf : String → List Charge) (pi : PaymentIntent) : Bool :=
  (chargesOf pi.id).any refundedCharge

/-- The `refundedIntents : Set<string>` built by the lines 321-330 loop: the
ids of the payment intents with a refunded charge, each id kept once. -/
def refundedIntentIds (payments : List PaymentIntent)
    (chargesOf : String → List Charge) : List String :=
  ((payments.filter (hasRefundedCharge chargesOf)).map (fun pi => pi.id)).dedup

/-- The `methodStats[method]` update of lines 341-345: bump the entry of an
existing key in place, or append a fresh `{count: 1, value: amt}` entry
(JavaScript objects keep key-insertion order). -/
def upsertMethod : List MethodStat → String → ℚ → List MethodStat
  | [], method, amt => [⟨method, 1, amt⟩]
  | s :: rest, method, amt =>
      if s.method = method then ⟨s.method, s.count + 1, s.value + amt⟩ :: rest
      else s :: upsertMethod rest method amt

/-- The body of the `for (const pi of successful)` loop of lines 336-346,
accumulating `(methodStats, sumAmounts)`. -/
def methodFoldStep (acc : List MethodStat × ℚ) (pi : PaymentIntent) :
    List MethodStat × ℚ :=
  (upsertMethod acc.1 (firstMethod pi) (amountEuro pi), acc.2 + amountEuro pi)

/-- `payments.filter(p => p.status === 'succeeded')`. -/
def successfulOf (payments : List PaymentIntent) : List PaymentIntent :=
  payments.filter (fun p => p.status == "succeeded")

/-- `getPaymentStats` (lines 304-362).  `payments` is the single page of up to
100 payment intents the platform returns for `paymentIntents.list({limit: 100})`;
`chargesOf` gives the charges page the platform returns for each intent's
refund lookup. -/
def getPaymentStats (payments : List PaymentIntent)
    (chargesOf : String → List Charge) : PaymentStats :=
  let totalCount := payments.length
  let successful := successfulOf payments
  let refundedIntents := refundedIntentIds payments chargesOf
  let folded := successful.foldl methodFoldStep ([], 0)
  let avgValue : ℚ := if successful.length > 0 then folded.2 / successful.length else 0
  let successRate : ℚ :=
    if totalCount > 0 then ((successful.length : ℚ) / totalCount) * 100 else 0
  let refundRate : ℚ :=
    if totalCount > 0 then ((refundedIntents.length : ℚ) / totalCount) * 100 else 0
  { successRate := successRate, averageValue := avgValue,
    refundRate := refundRate, byMethod := folded.1 }

/-- Lookup of the entry of method `m` in a stats list. -/
def findStat (stats : List MethodStat) (m : String) : Option MethodStat :=
  stats.find? (fun s => s.method == m)

/-- The keys of a stats list. -/
def statKeys (stats : List MethodStat) : List String :=
  stats.map (fun s => s.method)

/-- Number of successful intents whose first declared method is `m`. -/
def methodCount (m : String) (l : List PaymentIntent) : Nat :=
  (l.filter (fun pi => firstMethod pi == m)).length

/-- Summed per-item euro value of the intents whose first declared method is `m`. -/
def methodValue (m : String) (l : List PaymentIntent) : ℚ :=
  ((l.filter (fun pi => firstMethod pi == m)).map amountEuro).sum

lemma methodFold_snd (l : List PaymentIntent) (acc : List MethodStat × ℚ) :
    (l.foldl methodFoldStep acc).2 = acc.2 + (l.map amountEuro).sum := by
  induction l generalizing acc with
  | nil => simp
  | cons pi rest ih =>
    rw [List.foldl_cons, ih]
    simp [methodFoldStep, add_assoc]

lemma findStat_upsertMethod (stats : List MethodStat) (method m : String) (amt : ℚ) :
    findStat (upsertMethod stats method amt) m
      = if method = m then
          match findStat stats m with
          | some s => some ⟨s.method, s.count + 1, s.value + amt⟩
          | none => some ⟨method, 1, amt⟩
        else findStat stats m := by
  induction stats with
  | nil =>
    by_cases h : method = m
    · simp [upsertMethod, findStat, List.find?, h]
    · have hb : (method == m) = false := by simpa using h
      simp [upsertMethod, findStat, List.find?, h, hb]
  | cons s rest ih =>
    by_cases hs : s.method = method
    · by_cases hm : method = m
      · have hsm : (s.method == m) = true := by simp [hs, hm]
        simp [upsertMethod, findStat, hs, hm, List.find?, hsm]
      · have hsm : (s.method == m) = false := by simp [hs, hm]
        have hmb : (method == m) = false := by simpa using hm
        simp [upsertMethod, findStat, hs, hm, List.find?, hsm, hmb]
    · by_cases hsm : (s.method == m) = true
      · have hm : ¬ method = m := by
          intro hmm
          exact hs (by rw [hmm]; exact eq_of_beq hsm)
        simp [upsertMethod, findStat, hs, hm, List.find?, hsm]
      · have hsm' : (s.method == m) = false := by simpa using hsm
        simp only [upsertMethod, if_neg hs]
        by_cases hm : method = m
        · simp [findStat, List.find?, hsm'] at ih ⊢
          rw [ih, if_pos hm]
        · simp [findStat, List.find?, hsm'] at ih ⊢
          rw [ih, if_neg hm]

lemma findStat_methodFold_some (l : List PaymentIntent) (acc : List MethodStat × ℚ)
    (m : String) (s : MethodStat) (h : findStat acc.1 m = some s) :
    findStat ((l.foldl methodFoldStep acc).1) m
      = some ⟨s.method, s.count + methodCount m l, s.value + methodValue m l⟩ := by
  induction l generalizing acc s with
  | nil => simpa [methodCount, methodValue] using h
  | cons pi rest ih =>
    rw [List.foldl_cons]
    by_cases hm : firstMethod pi = m
    · have hacc : findStat (methodFoldStep acc pi).1 m
          = some ⟨s.method, s.count + 1, s.value + amountEuro pi⟩ := by
        simp [methodFoldStep, findStat_upsertMethod, hm, h]
      rw [ih (methodFoldStep acc pi) _ hacc]
      have hc : methodCount m (pi :: rest) = methodCount m rest + 1 := by
        simp [methodCount, List.filter_cons, hm]
      have hv : methodValue m (pi :: rest) = amountEuro pi + methodValue m rest := by
        simp [methodValue, List.filter_cons, hm]
      rw [hc, hv]
      simp only [Option.some.injEq, MethodStat.mk.injEq]
      refine ⟨trivial, by omega, by ring_nf⟩
    · have hacc : findStat (methodFoldStep acc pi).1 m = some s := by
        simp [methodFoldStep, findStat_upsertMethod, hm, h]
      rw [ih (methodFoldStep acc pi) _ hacc]
      have hmb : (firstMethod pi == m) = false := by simpa using hm
      have hc : methodCount m (pi :: rest) = methodCount m rest := by
        simp [methodCount, List.filter_cons, hmb]
      have hv : methodValue m (pi :: rest) = methodValue m rest := by
        simp [methodValue, List.filter_cons, hmb]
      rw [hc, hv]

lemma findStat_methodFold_none (l : List PaymentIntent) (acc : List MethodStat × ℚ)
    (m : String) (h : findStat acc.1 m = none) :
    findStat ((l.foldl methodFoldStep acc).1) m
      = if methodCount m l = 0 then none
        else some ⟨m, methodCount m l, methodValue m l⟩ := by
  induction l generalizing acc with
  | nil => simpa [methodCount, methodValue] using h
  | cons pi rest ih =>
    rw [List.foldl_cons]
    by_cases hm : firstMethod pi = m
    · have hacc : findStat (methodFoldStep acc pi).1 m = some ⟨m, 1, amountEuro pi⟩ := by
        simp [methodFoldStep, findStat_upsertMethod, hm, h]
      rw [findStat_methodFold_some rest (methodFoldStep acc pi) m _ hacc]
      have hc : methodCount m (pi :: rest) = methodCount m rest + 1 := by
        simp [methodCount, List.filter_cons, hm]
      have hv : methodValue m (pi :: rest) = amountEuro pi + methodValue m rest := by
        simp [methodValue, List.filter_cons, hm]
      rw [hc, hv, if_neg (Nat.succ_ne_zero _)]
      simp only [Option.some.injEq, MethodStat.mk.injEq]
      refine ⟨trivial, by omega, by ring_nf⟩
    · have hacc : findStat (methodFoldStep acc pi).1 m = none := by
        simp [methodFoldStep, findStat_upsertMethod, hm, h]
      rw [ih (methodFoldStep acc pi) hacc]
      have hmb : (firstMethod pi == m) = false := by simpa using hm
      have hc : methodCount m (pi :: rest) = methodCount m rest := by
        simp [methodCount, List.filter_cons, hmb]
      have hv : methodValue m (pi :: rest) = methodValue m rest := by
        simp [methodValue, List.filter_cons, hmb]
      rw [hc, hv]

lemma statKeys_cons (s : MethodStat) (rest : List MethodStat) :
    statKeys (s :: rest) = s.method :: statKeys rest := rfl

lemma statKeys_upsertMethod (stats : List MethodStat) (method : String) (amt : ℚ) :
    statKeys (upsertMethod stats method amt)
      = if method ∈ statKeys stats then statKeys stats
        else statKeys stats ++ [method] := by
  induction stats with
  | nil => simp [upsertMethod, statKeys]
  | cons s rest ih =>
    by_cases h : s.method = method
    · have hmem : method ∈ s.method :: statKeys rest := by
        rw [h]
        exact List.mem_cons_self _ _
      simp only [upsertMethod, if_pos h, statKeys_cons]
      rw [if_pos hmem]
    · have h2 : ¬ method = s.method := fun hh => h hh.symm
      have hmc : (method ∈ s.method :: statKeys rest) ↔ method ∈ statKeys rest := by
        simp [h2]
      simp only [upsertMethod, if_neg h, statKeys_cons, ih]
      by_cases hmem : method ∈ statKeys rest
      · rw [if_pos hmem, if_pos (hmc.mpr hmem)]
      · rw [if_neg hmem, if_neg (fun hh => hmem (hmc.mp hh))]
        simp

lemma statKeys_nodup_fold (l : List PaymentIntent) (acc : List MethodStat × ℚ)
    (h : (statKeys acc.1).Nodup) : (statKeys ((l.foldl methodFoldStep acc).1)).Nodup := by
  induction l generalizing acc with
  | nil => exact h
  | cons pi rest ih =>
    rw [List.foldl_cons]
    apply ih
    show (statKeys (upsertMethod acc.1 (firstMethod pi) (amountEuro pi))).Nodup
    rw [statKeys_upsertMethod]
    split
    · exact h
    · rename_i hmem
      simp [List.nodup_append, h, hmem]

/-- C4: for every list of at most 100 payment attempts, `getPaymentStats`
returns `successRate = successful/total*100` and
`refundRate = distinctRefundedAttempts/total*100`, `averageValue` the mean
amount-received in major units over successful attempts only (0 when there is
no successful attempt), and `byMethod` grouping the successful attempts by
their first declared payment-method type with accumulated count and summed
value (stated through the lookup `findStat` and the key list `statKeys`);
when the list is empty all three rates are 0 and `byMethod` is empty, with
no division by zero anywhere. -/
theorem getPaymentStats_correct (payments : List PaymentIntent)
    (chargesOf : String → List Charge) (hlen : payments.length ≤ 100) :
    (payments = [] → getPaymentStats payments chargesOf = ⟨0, 0, 0, []⟩) ∧
    (payments ≠ [] →
      (getPaymentStats payments chargesOf).successRate
          = ((successfulOf payments).length : ℚ) / (payments.length : ℚ) * 100 ∧
      (getPaymentStats payments chargesOf).refundRate
          = ((refundedIntentIds payments chargesOf).length : ℚ)
              / (payments.length : ℚ) * 100) ∧
    (successfulOf payments ≠ [] →
      (getPaymentStats payments chargesOf).averageValue
          = ((successfulOf payments).map amountEuro).sum
              / ((successfulOf payments).length : ℚ)) ∧
    (successfulOf payments = [] →
      (getPaymentStats payments chargesOf).averageValue = 0) ∧
    (∀ m : String,
      findStat (getPaymentStats payments chargesOf).byMethod m
        = if methodCount m (successfulOf payments) = 0 then none
          else some ⟨m, methodCount m (successfulOf payments),
                     methodValue m (successfulOf payments)⟩) ∧
    (statKeys (getPaymentStats payments chargesOf).byMethod).Nodup := by
  refine ⟨?_, ?_, ?_, ?_, ?_, ?_⟩
  · rintro rfl
    rfl
  · intro hne
    have hpos : 0 < payments.length := List.length_pos.mpr hne
    exact ⟨by simp [getPaymentStats, hpos], by simp [getPaymentStats, hpos]⟩
  · intro hne
    have hpos : 0 < (successfulOf payments).length := List.length_pos.mpr hne
    simp [getPaymentStats, hpos, methodFold_snd]
  · intro he
    simp [getPaymentStats, he]
  · intro m
    simpa [getPaymentStats]
      using findStat_methodFold_none (successfulOf payments) ([], 0) m rfl
  · simpa [getPaymentStats]
      using statKeys_nodup_fold (successfulOf payments) ([], 0) (by simp [statKeys])

/-- Concrete instantiation of `getPaymentStats_correct`: one succeeded intent
of 1000 cents paid by card and one failed intent whose charge was partially
refunded give `successRate = 50`, `refundRate = 50`, `averageValue = 10` euros
and a single `byMethod` entry `{card, 1, 10}`. -/
theorem getPaymentStats_correct_witness :
    (getPaymentStats
        [⟨"pi_a", "succeeded", some 1000, ["card"]⟩,
         ⟨"pi_b", "requires_payment_method", some 0, ["card"]⟩]
        (fun pid => if pid = "pi_b" then [⟨"ch_b", 0, false, false, some 0, 500⟩] else [])).successRate
        = 50 ∧
    (getPaymentStats
        [⟨"pi_a", "succeeded", some 1000, ["card"]⟩,
         ⟨"pi_b", "requires_payment_method", some 0, ["card"]⟩]
        (fun pid => if pid = "pi_b" then [⟨"ch_b", 0, false, false, some 0, 500⟩] else [])).refundRate
        = 50 ∧
    (getPaymentStats
        [⟨"pi_a", "succeeded", some 1000, ["card"]⟩,
         ⟨"pi_b", "requires_payment_method", some 0, ["card"]⟩]
        (fun pid => if pid = "pi_b" then [⟨"ch_b", 0, false, false, some 0, 500⟩] else [])).averageValue
        = 10 ∧
    findStat (getPaymentStats
        [⟨"pi_a", "succeeded", some 1000, ["card"]⟩,
         ⟨"pi_b", "requires_payment_method", some 0, ["card"]⟩]
        (fun pid => if pid = "pi_b" then [⟨"ch_b", 0, false, false, some 0, 500⟩] else [])).byMethod
        "card"
        = some ⟨"card", 1, 10⟩ := by
  obtain ⟨-, h2, h3, -, h5, -⟩ := getPaymentStats_correct
    [⟨"pi_a", "succeeded", some 1000, ["card"]⟩,
     ⟨"pi_b", "requires_payment_method", some 0, ["card"]⟩]
    (fun pid => if pid = "pi_b" then [⟨"ch_b", 0, false, false, some 0, 500⟩] else [])
    (by norm_num)
  have hsucc : successfulOf
      [⟨"pi_a", "succeeded", some 1000, ["card"]⟩,
       ⟨"pi_b", "requires_payment_method", some 0, ["card"]⟩]
      = [⟨"pi_a", "succeeded", some 1000, ["card"]⟩] := by rfl
  have href : refundedIntentIds
      [⟨"pi_a", "succeeded", some 1000, ["card"]⟩,
       ⟨"pi_b", "requires_payment_method", some 0, ["card"]⟩]
      (fun pid => if pid = "pi_b" then [⟨"ch_b", 0, false, false, some 0, 500⟩] else [])
      = ["pi_b"] := by rfl
  obtain ⟨h2a, h2b⟩ := h2 (by simp)
  refine ⟨?_, ?_, ?_, ?_⟩
  · rw [h2a, hsucc]
    norm_num
  · rw [h2b, href]
    norm_num
  · rw [h3 (by rw [hsucc]; simp), hsucc]
    norm_num [amountEuro]
  · rw [h5 "card", hsucc]
    norm_num [methodCount, methodValue, firstMethod, amountEuro]

/-- C9: in `getPaymentStats`, a payment attempt counts as refunded iff some
charge the platform lists for it either carries the `refunded` flag or has a
strictly positive `amount_refunded` — so a partially refunded attempt counts
exactly like a fully refunded one — each attempt is counted at most once
(the id list is duplicate-free), and `refundRate` is the share of these
distinct refunded attempts among all attempts. -/
theorem refundedIntentIds_spec (payments : List PaymentIntent)
    (chargesOf : String → List Charge) :
    (∀ pid : String,
      pid ∈ refundedIntentIds payments chargesOf
        ↔ ∃ pi ∈ payments, pi.id = pid ∧
            ∃ c ∈ chargesOf pi.id, c.refunded = true ∨ 0 < c.amount_refunded) ∧
    (refundedIntentIds payments chargesOf).Nodup ∧
    (payments ≠ [] →
      (getPaymentStats payments chargesOf).refundRate
        = ((refundedIntentIds payments chargesOf).length : ℚ)
            / (payments.length : ℚ) * 100) := by
  refine ⟨?_, ?_, ?_⟩
  · intro pid
    simp only [refundedIntentIds, List.mem_dedup, List.mem_map, List.mem_filter,
      hasRefundedCharge, List.any_eq_true, refundedCharge, Bool.or_eq_true,
      decide_eq_true_eq]
    constructor
    · rintro ⟨pi, ⟨hmem, c, hc, hrc⟩, hid⟩
      exact ⟨pi, hmem, hid, c, hc, hrc⟩
    · rintro ⟨pi, hmem, hid, c, hc, hrc⟩
      exact ⟨pi, ⟨hmem, c, hc, hrc⟩, hid⟩
  · exact List.nodup_dedup _
  · intro hne
    have hpos : 0 < payments.length := List.length_pos.mpr hne
    simp [getPaymentStats, hpos]

/-- Concrete instantiation of `refundedIntentIds_spec`: a succeeded attempt
whose only charge is *partially* refunded (`refunded = false`,
`amount_refunded = 100 > 0`) counts as refunded, and with one attempt the
refund rate is 100. -/
theorem refundedIntentIds_spec_witness :
    "pi_p" ∈ refundedIntentIds [⟨"pi_p", "succeeded", some 600, ["card"]⟩]
        (fun _ => [⟨"ch_p", 0, true, false, some 600, 100⟩]) ∧
    (getPaymentStats [⟨"pi_p", "succeeded", some 600, ["card"]⟩]
        (fun _ => [⟨"ch_p", 0, true, false, some 600, 100⟩])).refundRate = 100 := by
  constructor
  · exact ((refundedIntentIds_spec [⟨"pi_p", "succeeded", some 600, ["card"]⟩]
        (fun _ => [⟨"ch_p", 0, true, false, some 600, 100⟩])).1 "pi_p").mpr
      ⟨⟨"pi_p", "succeeded", some 600, ["card"]⟩, by simp, rfl,
       ⟨"ch_p", 0, true, false, some 600, 100⟩, by simp, Or.inr (by norm_num)⟩
  · rw [(refundedIntentIds_spec [⟨"pi_p", "succeeded", some 600, ["card"]⟩]
        (fun _ => [⟨"ch_p", 0, true, false, some 600, 100⟩])).2.2 (by simp)]
    have hr : refundedIntentIds [⟨"pi_p", "succeeded", some 600, ["card"]⟩]
        (fun _ => [⟨"ch_p", 0, true, false, some 600, 100⟩]) = ["pi_p"] := by rfl
    rw [hr]
    norm_num

end Stripe
